import Mathlib

/-!
Shallow embedding of the connection-lifecycle and scheduled-publish core of
the secure-automotive-gateway repository
(src/can_gateway/docker/basic_mqtt_client.py and src/can_gateway/docker/app.py).

Python exceptions are modelled explicitly: a transport call that may raise is
represented by a boolean in an environment record, and a `try/except` block in
the source becomes a case split on that boolean. JSON values manipulated by
the code are modelled by the `PyValue` type below; wall-clock timestamps are
modelled as integers (no arithmetic is ever performed on them by the code).
-/

namespace Gateway

/-- A Python value as it appears in the gateway code: JSON scalars,
lists, string-keyed dicts (insertion-ordered, as in Python), plus `obj`,
an opaque non-JSON-serializable Python object. -/
inductive PyValue where
  | null : PyValue
  | bool (b : Bool) : PyValue
  | num (n : Int) : PyValue
  | str (s : String) : PyValue
  | list (xs : List PyValue) : PyValue
  | dict (fields : List (String × PyValue)) : PyValue
  | obj : PyValue

mutual

/-- Whether `json.dumps` succeeds on the value: every JSON value is
serializable (containers recursively); the opaque object `obj` is not. -/
def serializable : PyValue → Bool
  | .null => true
  | .bool _ => true
  | .num _ => true
  | .str _ => true
  | .list xs => serializableList xs
  | .dict fs => serializableFields fs
  | .obj => false

def serializableList : List PyValue → Bool
  | [] => true
  | x :: xs => serializable x && serializableList xs

def serializableFields : List (String × PyValue) → Bool
  | [] => true
  | (_, v) :: fs => serializable v && serializableFields fs

end

/-- Python truthiness of a value, as used by `if request.json:` in
app.py: `None`, `False`, `0`, the empty string, the empty list and the
empty dict are falsy; everything else is truthy. -/
def truthy : PyValue → Bool
  | .null => false
  | .bool b => b
  | .num n => n != 0
  | .str s => !s.isEmpty
  | .list xs => !xs.isEmpty
  | .dict fs => !fs.isEmpty
  | .obj => true

/-- Python dict item assignment d[k] = v: if the key is present its value is
replaced in place (insertion order kept); otherwise the pair is appended. -/
def dictSet (d : List (String × PyValue)) (k : String) (v : PyValue) :
    List (String × PyValue) :=
  if d.any (fun p => p.1 == k) then
    d.map (fun p => if p.1 == k then (k, v) else p)
  else
    d ++ [(k, v)]

/-- Python dict lookup d.get(k, dflt): the value at the first occurrence of
the key, or the default when the key is absent. -/
def dictGet (d : List (String × PyValue)) (k : String) (dflt : PyValue) :
    PyValue :=
  match d.find? (fun p => p.1 == k) with
  | some p => p.2
  | none => dflt

/-- Rendering of a config value inside an f-string topic pattern
(display only; every configuration in the repo stores strings here). -/
def pyDisplay : PyValue → String
  | .str s => s
  | .num n => toString n
  | _ => "?"

/-! ## Session Manager (CANGatewayMQTTClient, basic_mqtt_client.py)

The only piece of connectivity state of the client is the boolean field
is_connected, written by the _on_online / _on_offline callbacks and by the
fallback confirmation path of connect(). -/

/-- The mutable state of `CANGatewayMQTTClient` relevant to the claims:
the `is_connected` flag (False after `__init__`). -/
structure MqttState where
  is_connected : Bool
deriving DecidableEq, Repr

/-- Callback `_on_online` (basic_mqtt_client.py:69-72): sets the flag. -/
def on_online (s : MqttState) : MqttState :=
  { s with is_connected := true }

/-- Callback `_on_offline` (basic_mqtt_client.py:74-77): clears the flag. -/
def on_offline (s : MqttState) : MqttState :=
  { s with is_connected := false }

/-- Environment of one run of `connect()`: whether the transport handshake
`mqtt_client.connect()` raises, the value of `is_connected` observed at each
of the confirmation polls (the flag is written asynchronously by
`_on_online`), and whether the fallback probe publish raises. -/
structure ConnectEnv where
  handshakeRaises : Bool
  flag : Nat → Bool
  probeRaises : Bool

/-- Observable outcome of one run of `connect()` (basic_mqtt_client.py:79-114):
the returned boolean, whether the confirmation probe publish was invoked,
and how many 0.5-second sleeps the confirmation loop performed. -/
structure ConnectOutcome where
  ok : Bool
  probeInvoked : Bool
  sleeps : Nat
deriving DecidableEq, Repr

/-- Number of polls of the confirmation loop: `for i in range(20)`
(basic_mqtt_client.py:91), each preceded by `time.sleep(0.5)`. -/
def pollWindow : Nat := 20

/-- The confirmation loop of `connect()`: starting at poll index `i` with
`fuel` polls left, the index of the first poll at which `is_connected` reads
true, or `none` when the window elapses without the flag ever reading true. -/
def firstOnline (flag : Nat → Bool) : Nat → Nat → Option Nat
  | _, 0 => none
  | i, fuel + 1 => if flag i then some i else firstOnline flag (i + 1) fuel

/-- Model of `connect()` (basic_mqtt_client.py:79-114). The outer try returns False if
the handshake raises. The loop polls the flag 20 times, 0.5 s apart, and
returns True as soon as the flag reads true. If the window elapses, the
fallback probe publishes "\x7b\x7d" at QoS 0 to the device-scoped diagnostic
topic: if the probe does not raise, connect sets the flag and returns True,
otherwise the inner except returns False. -/
def connect (env : ConnectEnv) : ConnectOutcome :=
  if env.handshakeRaises then
    { ok := false, probeInvoked := false, sleeps := 0 }
  else
    match firstOnline env.flag 0 pollWindow with
    | some k => { ok := true, probeInvoked := false, sleeps := k + 1 }
    | none =>
      if env.probeRaises then
        { ok := false, probeInvoked := true, sleeps := pollWindow }
      else
        { ok := true, probeInvoked := true, sleeps := pollWindow }

/-- Final `is_connected` flag after `connect()`: the fallback-success path is
the only place `connect` itself writes the flag (basic_mqtt_client.py:104);
on the callback path the flag is the (true) value the loop observed; on the
failure paths the flag keeps the value the environment last gave it. -/
def connectFlagAfter (env : ConnectEnv) : Bool :=
  if env.handshakeRaises then env.flag 0
  else
    match firstOnline env.flag 0 pollWindow with
    | some k => env.flag k
    | none => if env.probeRaises then env.flag pollWindow else true

/-- Environment of one `publish()` call: whether the transport-level
`mqtt_client.publish` raises. -/
structure TransportEnv where
  publishRaises : Bool
deriving DecidableEq, Repr

/-- Observable outcome of one `publish()` call: the returned boolean and
whether the transport send was attempted at all. -/
structure PublishOutcome where
  ok : Bool
  sendAttempted : Bool
deriving DecidableEq, Repr

/-- Model of `publish(topic, payload, qos)` (basic_mqtt_client.py:136-154):
`json.dumps(payload)` runs first and raises iff the payload is not
serializable; only then is the transport send attempted, which raises iff
the environment says so; the single except handler catches either failure
and returns False. The client state is never touched. -/
def publish (env : TransportEnv) (s : MqttState) (topic : String)
    (payload : PyValue) (qos : Nat) : PublishOutcome × MqttState :=
  if !serializable payload then
    ({ ok := false, sendAttempted := false }, s)
  else if env.publishRaises then
    ({ ok := false, sendAttempted := true }, s)
  else
    ({ ok := true, sendAttempted := true }, s)

/-- Environment of one `disconnect()` call: whether the transport
`mqtt_client.disconnect()` raises, and whether the transport dispatched the
offline notification (`_on_offline`) in the course of the disconnect. -/
structure DisconnectEnv where
  transportRaises : Bool
  offlineFires : Bool
deriving DecidableEq, Repr

/-- Model of `disconnect()` (basic_mqtt_client.py:156-162): calls the transport
disconnect inside try/except, swallowing any error. The method body itself
never writes `is_connected`; the flag changes only if the transport invokes
the `_on_offline` callback. -/
def disconnect (env : DisconnectEnv) (s : MqttState) : MqttState :=
  if env.offlineFires then on_offline s else s

/-! ## Flask application layer (app.py) -/

/-- The application configuration dict loaded by `load_config()`
(app.py:23-31): a JSON object read from config.json. -/
abbrev Config := List (String × PyValue)

/-- The telemetry topic `f"vehicle/.../telemetry"` built from
`config.get("thing_name", "can-gateway")` (app.py:58 and app.py:115). -/
def telemetryTopic (cfg : Config) : String :=
  "vehicle/" ++ pyDisplay (dictGet cfg "thing_name" (.str "can-gateway"))
    ++ "/telemetry"

/-- The default telemetry payload synthesized by `manual_publish`
(app.py:108-113) when the request carries no (truthy) JSON body. -/
def defaultManualPayload (now : Int) (cfg : Config) :
    List (String × PyValue) :=
  [("timestamp", .num now),
   ("gateway_id", dictGet cfg "thing_name" (.str "can-gateway")),
   ("status", .str "online"),
   ("message", .str "Manual publish")]

/-- The payload-construction step of `manual_publish` (app.py:102-113):
`if request.json:` takes the truthy branch, where `payload["timestamp"] =
time.time()` either overwrites/appends the timestamp key of a dict body or
raises a TypeError on a non-dict body (caught by the except of the handler);
otherwise the default four-field payload is built. -/
def manualPublishPayload (reqJson : Option PyValue) (now : Int)
    (cfg : Config) : Except String PyValue :=
  match reqJson with
  | some j =>
    if truthy j then
      match j with
      | .dict d => .ok (.dict (dictSet d "timestamp" (.num now)))
      | _ => .error "TypeError: value does not support item assignment"
    else
      .ok (.dict (defaultManualPayload now cfg))
  | none => .ok (.dict (defaultManualPayload now cfg))

/-- An HTTP response of the control surface: JSON body and status code. -/
structure HttpResp where
  body : PyValue
  code : Nat

/-- The `/publish` handler `manual_publish` (app.py:99-133). `clientSet`
says whether the global `mqtt_client` is non-None; when it is None the
attribute access `mqtt_client.publish` raises, the except clause catches it
and returns the error body with code 500. A payload-construction TypeError
is caught by the same handler. Otherwise the session manager publish runs
at QoS 1 and the handler reports 200 on success, 500 on failure. -/
def manual_publish (clientSet : Bool) (env : TransportEnv) (s : MqttState)
    (reqJson : Option PyValue) (now : Int) (cfg : Config) :
    HttpResp × MqttState :=
  match manualPublishPayload reqJson now cfg with
  | .error msg =>
    ({ body := .dict [("status", .str "error"), ("message", .str msg)],
       code := 500 }, s)
  | .ok payload =>
    if !clientSet then
      ({ body := .dict [("status", .str "error"),
          ("message", .str "AttributeError: NoneType has no attribute publish")],
         code := 500 }, s)
    else
      let topic := telemetryTopic cfg
      let r := publish env s topic payload 1
      if r.1.ok then
        ({ body := .dict [("status", .str "success"), ("topic", .str topic),
            ("payload", payload)], code := 200 }, r.2)
      else
        ({ body := .dict [("status", .str "error"),
            ("message", .str "Failed to publish")], code := 500 }, r.2)

/-- The `/config` handler `get_config` (app.py:135-143): a four-field JSON
object read from the config dict with the defaults used by the code. -/
def get_config (cfg : Config) : HttpResp :=
  { body := .dict
      [("endpoint", dictGet cfg "endpoint" (.str "N/A")),
       ("thing_name", dictGet cfg "thing_name" (.str "N/A")),
       ("client_id", dictGet cfg "client_id" (.str "N/A")),
       ("publish_interval_seconds",
         dictGet cfg "publish_interval_seconds" (.num 300))],
    code := 200 }

/-! ## Scheduled publisher loop (publisher_loop, app.py:71-84) -/

/-- One run of `publisher_loop`, unrolled for `fuel` iterations starting at
iteration index `i`. `stopAt j` is the value `stop_event.is_set()` reads at
the top of iteration `j`; `raisesAt j` says whether `publish_telemetry()`
raises during iteration `j`. Each executed iteration records whether its
except clause caught an exception (`true`) and is followed by the
interruptible `stop_event.wait`; the second component of the pair tells whether
the loop exited (observed the stop event) within the unrolled iterations. -/
def publisherLoop (stopAt raisesAt : Nat → Bool) :
    Nat → Nat → List Bool × Bool
  | 0, _ => ([], false)
  | fuel + 1, i =>
    if stopAt i then ([], true)
    else
      let rest := publisherLoop stopAt raisesAt fuel (i + 1)
      (raisesAt i :: rest.1, rest.2)

/-! ## Shutdown coordinator (shutdown, app.py:151-159) -/

/-- An observable action of the shutdown sequence: setting the stop event,
joining the publisher thread with a bounded timeout (recording whether the
thread actually exited within it), and calling the client disconnect. -/
inductive ShutAct where
  | setSignal : ShutAct
  | joinWait (timeoutSecs : Nat) (exited : Bool) : ShutAct
  | disconnectCall : ShutAct
deriving DecidableEq, Repr

/-- Model of `shutdown()` (app.py:151-159) as the sequence of actions it performs:
set `stop_event`; if the global `publisher_thread` is non-None, join it with
a 5-second timeout (`join` returns whether or not the thread exited); if the
global `mqtt_client` is non-None, call its `disconnect()`. -/
def shutdown (pubThreadSet clientSet exitsInTime : Bool) : List ShutAct :=
  [ShutAct.setSignal]
    ++ (if pubThreadSet then [ShutAct.joinWait 5 exitsInTime] else [])
    ++ (if clientSet then [ShutAct.disconnectCall] else [])

/-- The key list of a JSON object (empty for non-objects). -/
def pyKeys : PyValue → List String
  | .dict fs => fs.map Prod.fst
  | _ => []

/-- The "status" field of a JSON response body (null when absent or when
the body is not an object). -/
def respStatus (r : HttpResp) : PyValue :=
  match r.body with
  | .dict fs => dictGet fs "status" .null
  | _ => .null

/-! ## Lemmas about the confirmation loop -/

theorem firstOnline_eq_none_iff (flag : Nat → Bool) :
    ∀ fuel i, firstOnline flag i fuel = none ↔
      ∀ k, i ≤ k → k < i + fuel → flag k = false := by
  intro fuel
  induction fuel with
  | zero =>
    intro i
    simp [firstOnline]
    omega
  | succ n ih =>
    intro i
    simp only [firstOnline]
    by_cases h : flag i = true
    · simp [h]
      exact ⟨i, le_refl i, by omega, h⟩
    · have hf : flag i = false := by simpa using h
      simp [hf, ih (i + 1)]
      constructor
      · intro hall k hik hk
        rcases Nat.eq_or_lt_of_le hik with rfl | hlt
        · exact hf
        · exact hall k hlt (by omega)
      · intro hall k hik hk
        exact hall k (by omega) (by omega)

theorem firstOnline_eq_some (flag : Nat → Bool) :
    ∀ fuel i j, firstOnline flag i fuel = some j →
      flag j = true ∧ i ≤ j ∧ j < i + fuel := by
  intro fuel
  induction fuel with
  | zero => intro i j h; simp [firstOnline] at h
  | succ n ih =>
    intro i j h
    simp only [firstOnline] at h
    by_cases hf : flag i = true
    · simp [hf] at h
      subst h
      exact ⟨hf, le_refl i, by omega⟩
    · have hf0 : flag i = false := by simpa using hf
      simp [hf0] at h
      obtain ⟨h1, h2, h3⟩ := ih (i + 1) j h
      exact ⟨h1, by omega, by omega⟩

/-! ## Claims -/

/-- Claim C1: in a run of connect() whose handshake does not raise, if the
online notification sets the connected flag at some poll of the bounded
confirmation window, connect() returns true and never invokes the
confirmation probe; if the flag never reads true within the window, the
probe is invoked and connect() returns true exactly when the probe publish
does not raise. -/
theorem connect_confirmation (env : ConnectEnv)
    (hs : env.handshakeRaises = false) :
    ((∃ k, k < pollWindow ∧ env.flag k = true) →
      (connect env).ok = true ∧ (connect env).probeInvoked = false)
    ∧ ((∀ k, k < pollWindow → env.flag k = false) →
      (connect env).ok = !env.probeRaises ∧
        (connect env).probeInvoked = true) := by
  constructor
  · rintro ⟨k, hk, hfk⟩
    unfold connect
    rw [hs]
    simp only [Bool.false_eq_true, if_false]
    cases h : firstOnline env.flag 0 pollWindow with
    | some m => simp
    | none =>
      have := (firstOnline_eq_none_iff env.flag pollWindow 0).mp h k
        (Nat.zero_le _) (by omega)
      rw [hfk] at this
      cases this
  · intro hall
    unfold connect
    rw [hs]
    simp only [Bool.false_eq_true, if_false]
    cases h : firstOnline env.flag 0 pollWindow with
    | some m =>
      obtain ⟨h1, _, h3⟩ := firstOnline_eq_some env.flag pollWindow 0 m h
      have := hall m (by omega)
      rw [h1] at this
      cases this
    | none => cases hp : env.probeRaises <;> simp

/-- Witness for connect_confirmation: a run where the handshake succeeds and
the flag reads true at poll 3 returns true without invoking the probe. -/
theorem connect_confirmation_witness :
    (connect ⟨false, fun k => decide (k = 3), true⟩).ok = true ∧
    (connect ⟨false, fun k => decide (k = 3), true⟩).probeInvoked = false :=
  (connect_confirmation ⟨false, fun k => decide (k = 3), true⟩ rfl).1
    ⟨3, by decide, by decide⟩

/-- Claim C7: connect() is bounded -- every run performs at most 20 sleeps
of 0.5 seconds (the 10-second design window) and at most one probe publish,
and returns a boolean rather than blocking. -/
theorem connect_bounded (env : ConnectEnv) :
    (connect env).sleeps ≤ pollWindow ∧ pollWindow = 20 := by
  refine ⟨?_, rfl⟩
  unfold connect
  by_cases hs : env.handshakeRaises = true
  · simp [hs]
  · simp only [hs, if_false]
    cases h : firstOnline env.flag 0 pollWindow with
    | some m =>
      obtain ⟨_, _, h3⟩ := firstOnline_eq_some env.flag pollWindow 0 m h
      simpa using by omega
    | none => cases env.probeRaises <;> simp

/-- Claim C2 counterexample: starting from a connected state, a disconnect()
whose transport close raises and during which no offline notification fires
leaves the connected flag true, not false as the claim requires. -/
theorem disconnect_counterexample :
    (disconnect ⟨true, false⟩ ⟨true⟩).is_connected ≠ false := by
  decide

/-- Claim C2 amended: disconnect() swallows transport errors (its body is a
total function of the environment) but never itself writes the connected
flag; after disconnect() the flag is false exactly when the offline
notification fired during the disconnect or the flag was already false. -/
theorem disconnect_flag (env : DisconnectEnv) (s : MqttState) :
    (disconnect env s).is_connected = (!env.offlineFires && s.is_connected) := by
  cases h : env.offlineFires <;> simp [disconnect, on_offline, h]

/-- Claim C3: a publish() call on which serialization or the transport send
fails returns false (the except handler converts the exception, so nothing
propagates) and leaves the connectivity state unchanged. -/
theorem publish_failure (env : TransportEnv) (s : MqttState) (topic : String)
    (payload : PyValue) (qos : Nat)
    (h : serializable payload = false ∨ env.publishRaises = true) :
    (publish env s topic payload qos).1.ok = false ∧
    (publish env s topic payload qos).2 = s := by
  cases hs : serializable payload with
  | false => simp [publish, hs]
  | true =>
    rcases h with h | h
    · rw [hs] at h; cases h
    · simp [publish, hs, h]

/-- Witness for publish_failure: a transport failure on a serializable
payload returns false and keeps the connected flag. -/
theorem publish_failure_witness :
    (publish ⟨true⟩ ⟨true⟩ "t" (.dict []) 1).1.ok = false ∧
    (publish ⟨true⟩ ⟨true⟩ "t" (.dict []) 1).2 = ⟨true⟩ :=
  publish_failure ⟨true⟩ ⟨true⟩ "t" (.dict []) 1 (Or.inr rfl)

/-- Claim C10: a non-serializable payload makes publish() return false with
no transport send attempted (json.dumps runs first and its exception reaches
the same handler), while a transport failure on a serializable payload also
returns false with the send attempted -- so the returned boolean does not
distinguish the two failures. -/
theorem publish_serialization_short_circuit (env env2 : TransportEnv)
    (s s2 : MqttState) (t t2 : String) (p p2 : PyValue) (q q2 : Nat)
    (h : serializable p = false) (h2 : serializable p2 = true)
    (h3 : env2.publishRaises = true) :
    (publish env s t p q).1 = ⟨false, false⟩ ∧
    (publish env2 s2 t2 p2 q2).1 = ⟨false, true⟩ ∧
    (publish env s t p q).1.ok = (publish env2 s2 t2 p2 q2).1.ok := by
  refine ⟨by simp [publish, h], by simp [publish, h2, h3], ?_⟩
  simp [publish, h, h2, h3]

/-- Witness for publish_serialization_short_circuit: an opaque object
payload versus a transport failure on the empty dict. -/
theorem publish_serialization_witness :
    (publish ⟨false⟩ ⟨true⟩ "t" .obj 1).1 = ⟨false, false⟩ ∧
    (publish ⟨true⟩ ⟨true⟩ "t" (.dict []) 1).1 = ⟨false, true⟩ ∧
    (publish ⟨false⟩ ⟨true⟩ "t" .obj 1).1.ok =
      (publish ⟨true⟩ ⟨true⟩ "t" (.dict []) 1).1.ok :=
  publish_serialization_short_circuit ⟨false⟩ ⟨true⟩ ⟨true⟩ ⟨true⟩ "t" "t"
    .obj (.dict []) 1 1 rfl rfl rfl

/-- Claim C5: in every execution of shutdown() reached by the program (both
the publisher thread and the client globals are set there), the sequence is
exactly: set the Shutdown Signal, join the publisher thread with the
5-second bound, call disconnect -- and disconnect is called exactly once
whether or not the publisher thread exited within the bound. -/
theorem shutdown_sequence (pubThreadSet clientSet exitsInTime : Bool)
    (hp : pubThreadSet = true) (hc : clientSet = true) :
    shutdown pubThreadSet clientSet exitsInTime =
      [ShutAct.setSignal, ShutAct.joinWait 5 exitsInTime,
        ShutAct.disconnectCall] ∧
    (shutdown pubThreadSet clientSet exitsInTime).count
      ShutAct.disconnectCall = 1 := by
  subst hp
  subst hc
  cases exitsInTime <;> exact ⟨rfl, by decide⟩

/-- Witness for shutdown_sequence: the run in which the publisher thread
does not exit within the 5-second bound still disconnects exactly once. -/
theorem shutdown_sequence_witness :
    shutdown true true false =
      [ShutAct.setSignal, ShutAct.joinWait 5 false, ShutAct.disconnectCall] ∧
    (shutdown true true false).count ShutAct.disconnectCall = 1 :=
  shutdown_sequence true true false rfl rfl

/-- Claim C6: the control flow of the publisher loop is independent of which
iterations raise inside the publish cycle (the except clause catches every
such exception and the loop proceeds to its wait and next iteration), and
the loop exits only at an iteration where the Shutdown Signal reads set. -/
theorem publisher_loop_resilient (stopAt r1 r2 : Nat → Bool)
    (fuel i : Nat) :
    ((publisherLoop stopAt r1 fuel i).1.length =
        (publisherLoop stopAt r2 fuel i).1.length ∧
      (publisherLoop stopAt r1 fuel i).2 =
        (publisherLoop stopAt r2 fuel i).2) ∧
    ((publisherLoop stopAt r1 fuel i).2 = true →
      ∃ j, i ≤ j ∧ j < i + fuel ∧ stopAt j = true) := by
  induction fuel generalizing i with
  | zero => simp [publisherLoop]
  | succ n ih =>
    by_cases h : stopAt i = true
    · refine ⟨⟨by simp [publisherLoop, h], by simp [publisherLoop, h]⟩, ?_⟩
      exact fun _ => ⟨i, le_refl i, by omega, h⟩
    · have h0 : stopAt i = false := by simpa using h
      refine ⟨⟨?_, ?_⟩, ?_⟩
      · simp [publisherLoop, h0, (ih (i + 1)).1.1]
      · simp [publisherLoop, h0, (ih (i + 1)).1.2]
      · intro hex
        simp only [publisherLoop, h0, Bool.false_eq_true, if_false] at hex
        obtain ⟨j, hj1, hj2, hj3⟩ := (ih (i + 1)).2 hex
        exact ⟨j, by omega, by omega, hj3⟩

/-- Witness for publisher_loop_resilient: with the stop event set at
iteration 2, a run whose publishes all raise still exits, and only at an
iteration where the stop event reads set. -/
theorem publisher_loop_resilient_witness :
    ∃ j, 0 ≤ j ∧ j < 0 + 5 ∧ (fun n => decide (n = 2)) j = true :=
  (publisher_loop_resilient (fun n => decide (n = 2)) (fun _ => true)
    (fun _ => false) 5 0).2 (by decide)

/-- Claim C9: when the shared mqtt client handle is None, every manual
publish request is answered with code 500 and a body whose status field is
"error" -- the raised error is caught inside the handler, for any request
body, transport behavior and configuration. -/
theorem manual_publish_no_client (env : TransportEnv) (s : MqttState)
    (reqJson : Option PyValue) (now : Int) (cfg : Config) :
    (manual_publish false env s reqJson now cfg).1.code = 500 ∧
    respStatus (manual_publish false env s reqJson now cfg).1 =
      .str "error" := by
  cases h : manualPublishPayload reqJson now cfg with
  | error msg => simp [manual_publish, h, respStatus, dictGet]
  | ok payload => simp [manual_publish, h, respStatus, dictGet]

/-- Claim C8: the configuration readback body carries exactly the four keys
endpoint, thing_name, client_id and publish_interval_seconds, and the whole
response is determined by those four config lookups alone -- in particular
two configurations that differ only in the credential fields (cert_path,
key_path, ca_path) produce identical readback responses. -/
theorem get_config_readback (cfg cfg2 : Config)
    (he : dictGet cfg "endpoint" (.str "N/A") =
      dictGet cfg2 "endpoint" (.str "N/A"))
    (ht : dictGet cfg "thing_name" (.str "N/A") =
      dictGet cfg2 "thing_name" (.str "N/A"))
    (hc : dictGet cfg "client_id" (.str "N/A") =
      dictGet cfg2 "client_id" (.str "N/A"))
    (hi : dictGet cfg "publish_interval_seconds" (.num 300) =
      dictGet cfg2 "publish_interval_seconds" (.num 300)) :
    pyKeys (get_config cfg).body =
      ["endpoint", "thing_name", "client_id", "publish_interval_seconds"] ∧
    get_config cfg = get_config cfg2 := by
  refine ⟨rfl, ?_⟩
  simp [get_config, he, ht, hc, hi]

/-- Witness for get_config_readback: two configurations that differ only in
cert_path, key_path and ca_path get the same readback response. -/
theorem get_config_readback_witness :
    pyKeys (get_config [("endpoint", .str "e"), ("cert_path", .str "certA"),
      ("key_path", .str "keyA"), ("ca_path", .str "caA")]).body =
      ["endpoint", "thing_name", "client_id", "publish_interval_seconds"] ∧
    get_config [("endpoint", .str "e"), ("cert_path", .str "certA"),
      ("key_path", .str "keyA"), ("ca_path", .str "caA")] =
    get_config [("endpoint", .str "e"), ("cert_path", .str "certB"),
      ("key_path", .str "keyB"), ("ca_path", .str "caB")] :=
  get_config_readback _ _ rfl rfl rfl rfl

/-! ## Lemmas about dict item assignment -/

theorem find_map_dictSet (k k2 : String) (v : PyValue)
    (h : (k == k2) = false) :
    ∀ d : List (String × PyValue),
      (d.map (fun p => if p.1 == k then (k, v) else p)).find?
        (fun p => p.1 == k2) = d.find? (fun p => p.1 == k2) := by
  intro d
  induction d with
  | nil => rfl
  | cons p d ih =>
    by_cases hp : (p.1 == k) = true
    · have hp2 : (p.1 == k2) = false := by
        have hpk : p.1 = k := by simpa using hp
        rw [hpk]
        exact h
      simp only [List.map_cons, List.find?_cons, if_pos hp, h, hp2]
      exact ih
    · simp only [List.map_cons, List.find?_cons, if_neg hp]
      cases hq : (p.1 == k2) with
      | true => rfl
      | false => exact ih

theorem find_append_single (k k2 : String) (v : PyValue)
    (h : (k == k2) = false) :
    ∀ d : List (String × PyValue),
      (d ++ [(k, v)]).find? (fun p => p.1 == k2) =
        d.find? (fun p => p.1 == k2) := by
  intro d
  induction d with
  | nil => simp [List.find?_cons, h]
  | cons p d ih =>
    cases hq : (p.1 == k2) with
    | true => simp [List.find?_cons, hq]
    | false => simp [List.find?_cons, hq, ih]

theorem dictSet_preserves_other_keys (d : List (String × PyValue))
    (k k2 : String) (v : PyValue) (h : (k == k2) = false) :
    (dictSet d k v).find? (fun p => p.1 == k2) =
      d.find? (fun p => p.1 == k2) := by
  unfold dictSet
  by_cases ha : d.any (fun p => p.1 == k) = true
  · simp only [ha, if_true]
    exact find_map_dictSet k k2 v h d
  · simp only [ha, Bool.false_eq_true, if_false]
    exact find_append_single k k2 v h d

/-- Claim C4 counterexample: a supplied empty-object body is falsy for the
truthiness test `if request.json:` of the handler, so the code publishes the default
four-field payload instead of the supplied body with its timestamp
overwritten (which would be the one-field object). -/
theorem manual_payload_empty_body_counterexample :
    manualPublishPayload (some (.dict [])) 100 [] =
      .ok (.dict [("timestamp", .num 100), ("gateway_id", .str "can-gateway"),
        ("status", .str "online"), ("message", .str "Manual publish")]) ∧
    manualPublishPayload (some (.dict [])) 100 [] ≠
      .ok (.dict (dictSet [] "timestamp" (.num 100))) := by
  refine ⟨rfl, ?_⟩
  simp [manualPublishPayload, truthy, dictSet, defaultManualPayload, dictGet]

/-- Claim C4 amended: with no request body, or with a body Python treats as
falsy (in particular the empty object), the published payload is the default
four-field object with status "online", message "Manual publish" and a fresh
timestamp; with a truthy (non-empty) supplied object body, the payload is
the supplied body with its timestamp key overwritten to the call time and
every other key bound to its original value. -/
theorem manual_payload_spec (now : Int) (cfg : Config)
    (d : List (String × PyValue)) (k : String) (dflt : PyValue)
    (hne : d ≠ []) (hk : k ≠ "timestamp") :
    manualPublishPayload (some (.dict d)) now cfg =
      .ok (.dict (dictSet d "timestamp" (.num now))) ∧
    dictGet (dictSet d "timestamp" (.num now)) k dflt = dictGet d k dflt ∧
    manualPublishPayload none now cfg =
      .ok (.dict (defaultManualPayload now cfg)) ∧
    manualPublishPayload (some (.dict [])) now cfg =
      .ok (.dict (defaultManualPayload now cfg)) := by
  refine ⟨?_, ?_, rfl, rfl⟩
  · cases d with
    | nil => exact absurd rfl hne
    | cons a l => simp [manualPublishPayload, truthy]
  · unfold dictGet
    rw [dictSet_preserves_other_keys d "timestamp" k (.num now)
      (by simpa using Ne.symm hk)]

/-- Witness for manual_payload_spec: a one-field body gains an appended
fresh timestamp and keeps its own field; no body and the empty-object body
both yield the default payload. -/
theorem manual_payload_spec_witness :
    manualPublishPayload (some (.dict [("a", .num 1)])) 7 [] =
      .ok (.dict (dictSet [("a", .num 1)] "timestamp" (.num 7))) ∧
    dictGet (dictSet [("a", .num 1)] "timestamp" (.num 7)) "a" .null =
      dictGet [("a", .num 1)] "a" .null ∧
    manualPublishPayload none 7 [] =
      .ok (.dict (defaultManualPayload 7 [])) ∧
    manualPublishPayload (some (.dict [])) 7 [] =
      .ok (.dict (defaultManualPayload 7 [])) :=
  manual_payload_spec 7 [] [("a", .num 1)] "a" .null (by simp) (by decide)

end Gateway
